import Mathlib

/-!
Verification of the Ingoo storefront: the `Home` UI controller
(frontend/src/pages/Home.jsx) — filter state, debounced catalog refetching,
request building, fetch-completion handling, the price/category/stock/sort
input handlers, and the store-hours banner — together with the catalog
query contract of the backend.
-/

namespace Ingoo

/-- Filter state held by the `Home` component (Home.jsx lines 21-25):
`searchQuery`, `selectedCategory` (null or a category name), `priceRange`
(a pair of numbers), `stockStatus` (null or a bucket name), `sortBy`. -/
structure FilterState where
  searchQuery : String
  selectedCategory : Option String
  priceRange : Int × Int
  stockStatus : Option String
  sortBy : String
deriving DecidableEq, Repr

/-- Initial values of the five `useState` hooks (Home.jsx lines 21-25):
`""`, `null`, `[0, 10000]`, `null`, `"newest"`. -/
def defaultFilters : FilterState :=
  ⟨"", none, (0, 10000), none, "newest"⟩

/-- `resetFilters` (Home.jsx lines 103-109): sets every filter field back to
its initial value, ignoring the current state. -/
def resetFilters (_ : FilterState) : FilterState :=
  defaultFilters

/-- JavaScript truthiness of a string: the empty string is falsy. -/
def truthyStr (s : String) : Bool :=
  decide (s ≠ "")

/-- JavaScript truthiness of a nullable string: `null` is falsy, a string is
truthy when non-empty. -/
def truthyOpt : Option String → Bool
  | none => false
  | some s => truthyStr s

/-- Query parameters built by `fetchProducts` (Home.jsx lines 71-77):
`search` and `category` only when truthy, `min_price` and `max_price`
always, `stock_status` and `sort_by` only when truthy, in source order. -/
def buildParams (s : FilterState) : List (String × String) :=
  (if truthyStr s.searchQuery then [("search", s.searchQuery)] else [])
    ++ (match s.selectedCategory with
        | some c => if truthyStr c then [("category", c)] else []
        | none => [])
    ++ [("min_price", toString s.priceRange.1), ("max_price", toString s.priceRange.2)]
    ++ (match s.stockStatus with
        | some c => if truthyStr c then [("stock_status", c)] else []
        | none => [])
    ++ (if truthyStr s.sortBy then [("sort_by", s.sortBy)] else [])

/-- Category-card click handler (Home.jsx line 288):
`setSelectedCategory(selectedCategory === cat.name ? null : cat.name)`. -/
def toggleCategory (selected : Option String) (name : String) : Option String :=
  if selected = some name then none else some name

/-- Min-price input `onChange` handler (Home.jsx lines 330-335): `none`
models a `NaN` parse (handler returns without updating); otherwise the new
minimum is `Math.max(0, Math.min(value, priceRange[1]))`. -/
def minPriceInput (r : Int × Int) : Option Int → Int × Int
  | none => r
  | some v => (max 0 (min v r.2), r.2)

/-- Max-price input `onChange` handler (Home.jsx lines 347-352): `none`
models a `NaN` parse; otherwise the new maximum is
`Math.max(priceRange[0], Math.min(value, 10000))`. -/
def maxPriceInput (r : Int × Int) : Option Int → Int × Int
  | none => r
  | some v => (r.1, max r.1 (min v 10000))

/-- Price-range invariant maintained by the UI: `0 ≤ min ≤ max ≤ 10000`. -/
def priceInv (r : Int × Int) : Prop :=
  0 ≤ r.1 ∧ r.1 ≤ r.2 ∧ r.2 ≤ 10000

/-- Store-hours computation in the desktop header (Home.jsx lines 135-143):
`isOpen = (isSunday && hour >= 8 && hour < 14) || (!isSunday && hour >= 8 && hour < 20)`
where `isSunday = getDay() === 0` and `hour = getHours()`. -/
def isOpenDesktop (day hour : Nat) : Bool :=
  (decide (day = 0) && decide (8 ≤ hour) && decide (hour < 14))
    || (!decide (day = 0) && decide (8 ≤ hour) && decide (hour < 20))

/-- Store-hours computation in the mobile header (Home.jsx lines 201-209),
textually identical to the desktop one. -/
def isOpenMobile (day hour : Nat) : Bool :=
  (decide (day = 0) && decide (8 ≤ hour) && decide (hour < 14))
    || (!decide (day = 0) && decide (8 ≤ hour) && decide (hour < 20))

/-- Debounce effect (Home.jsx lines 89-94) run over a time-ordered list of
filter-change events. Each change clears the pending timer (the effect
cleanup `clearTimeout`) unless that timer has already fired — it fires when
its fire time does not exceed the next change's time — and schedules a new
fetch `window` units later capturing the current state. Returns the fired
fetches as (time, state) pairs. -/
def debounceRun (window : Nat) :
    List (Nat × FilterState) → Option (Nat × FilterState) → List (Nat × FilterState)
  | [], none => []
  | [], some p => [p]
  | (t, s) :: rest, pend =>
      (match pend with
       | some p => if p.1 ≤ t then [p] else []
       | none => []) ++ debounceRun window rest (some (t + window, s))

/-- Fetches fired by the debounce effect for a change trace, starting with no
pending timer. -/
def runDebounce (window : Nat) (changes : List (Nat × FilterState)) :
    List (Nat × FilterState) :=
  debounceRun window changes none

/-- Specification-side view of trailing-edge debouncing: the changes that
survive are exactly those not followed within `window` units by another
change (the last change always survives). -/
def survivors (window : Nat) : List (Nat × FilterState) → List (Nat × FilterState)
  | [] => []
  | [c] => [c]
  | c :: c2 :: rest =>
      (if c.1 + window ≤ c2.1 then [c] else []) ++ survivors window (c2 :: rest)

/-- Product record as returned by the catalog endpoint (spec §3): identifier,
name, description, price, stock quantity, category name, creation
timestamp. -/
structure Product where
  id : Nat
  name : String
  description : String
  price : Rat
  stockQuantity : Nat
  category : String
  createdAt : Nat
deriving DecidableEq, Repr

/-- Client UI state touched by `fetchProducts`: the displayed product list
(`products`, line 19), the loading flag (line 28), and the notifications
shown so far (`toast` calls). -/
structure UIState where
  products : List Product
  loading : Bool
  toasts : List String
deriving DecidableEq, Repr

/-- Initial UI state: `products = []` (line 19), `loading = true`
(line 28), no notifications shown. -/
def initialUI : UIState :=
  ⟨[], true, []⟩

/-- Outcome of one products request. -/
inductive FetchResult
  | success (data : List Product)
  | failure
deriving DecidableEq, Repr

/-- Start of `fetchProducts` (Home.jsx line 70): `setLoading(true)`. -/
def fetchStart (u : UIState) : UIState :=
  { u with loading := true }

/-- Completion of `fetchProducts` (Home.jsx lines 79-86). On success the
response data replaces `products`; on failure `products` is untouched and
`toast.error("Failed to load products")` is shown; the `finally` block
clears `loading` in both cases. The second component lists the product
requests issued by the handler itself: the source issues none (the `catch`
and `finally` blocks contain no retry). -/
def fetchComplete (u : UIState) : FetchResult → UIState × List FilterState
  | FetchResult.success data => ({ u with products := data, loading := false }, [])
  | FetchResult.failure =>
      ({ u with toasts := u.toasts ++ ["Failed to load products"], loading := false }, [])

/-- UI state after a sequence of response arrivals is handled in order by
`fetchComplete`. The source keeps no request identifier, so every arrival
is processed the same way regardless of which request it answers. -/
def runResponses (u : UIState) (rs : List FetchResult) : UIState :=
  rs.foldl (fun u r => (fetchComplete u r).1) u

/-- Data of the last successful response in a sequence, or the given default
when none succeeded. -/
def lastSuccessD (dflt : List Product) : List FetchResult → List Product
  | [] => dflt
  | FetchResult.success d :: rest => lastSuccessD d rest
  | FetchResult.failure :: rest => lastSuccessD dflt rest

/-- Modelled from the spec: the three stock buckets of the catalog query
contract (spec §4.1); the backend implementation is not under src/. -/
inductive StockBucket
  | in_stock
  | low_stock
  | out_of_stock
deriving DecidableEq, Repr

/-- Modelled from the spec: bucket membership of a stock quantity
(spec §4.1: `in_stock` = quantity ≥ 10; `low_stock` = 1 ≤ quantity < 10;
`out_of_stock` = quantity = 0). -/
def stockMatches : StockBucket → Nat → Bool
  | StockBucket.in_stock, q => decide (10 ≤ q)
  | StockBucket.low_stock, q => decide (1 ≤ q) && decide (q < 10)
  | StockBucket.out_of_stock, q => decide (q = 0)

/-- Modelled from the spec: the three sort orders of the catalog query
contract (spec §4.1). -/
inductive SortOrder
  | newest
  | price_asc
  | price_desc
deriving DecidableEq, Repr

/-- Modelled from the spec: comparison used to order the result list
(spec §4.1: `newest` = creation timestamp descending, ties broken by
identifier descending; `price_asc`/`price_desc` = price
ascending/descending). -/
def sortLe (o : SortOrder) (a b : Product) : Bool :=
  match o with
  | SortOrder.newest =>
      decide (b.createdAt < a.createdAt)
        || (decide (b.createdAt = a.createdAt) && decide (b.id ≤ a.id))
  | SortOrder.price_asc => decide (a.price ≤ b.price)
  | SortOrder.price_desc => decide (b.price ≤ a.price)

/-- Case-insensitive prefix test on character lists. -/
def startsWithCL : List Char → List Char → Bool
  | _, [] => true
  | [], _ :: _ => false
  | h :: t, h2 :: t2 => h = h2 && startsWithCL t t2

/-- Substring occurrence test on character lists. -/
def containsCL : List Char → List Char → Bool
  | [], needle => needle.isEmpty
  | h :: t, needle => startsWithCL (h :: t) needle || containsCL t needle

/-- Modelled from the spec: case-insensitive substring match (spec §4.1:
`search`, if present, matches name or description case-insensitively,
substring match). -/
def containsCI (hay sub : String) : Bool :=
  containsCL (hay.toList.map Char.toLower) (sub.toList.map Char.toLower)

/-- Modelled from the spec: the catalog query parameters (spec §4.1
contract); the backend implementation is not under src/. -/
structure CatalogQuery where
  search : Option String
  category : Option String
  minPrice : Rat
  maxPrice : Rat
  stockStatus : Option StockBucket
  sortBy : SortOrder

/-- Modelled from the spec: conjunction of the active predicates of the
catalog query contract (spec §4.1): search match when present, exact
category match when present, price within `[minPrice, maxPrice]`
inclusive, and bucket membership when a stock status is requested. -/
def matchesQuery (q : CatalogQuery) (p : Product) : Bool :=
  (match q.search with
   | none => true
   | some s => containsCI p.name s || containsCI p.description s)
    && (match q.category with
        | none => true
        | some c => decide (p.category = c))
    && decide (q.minPrice ≤ p.price) && decide (p.price ≤ q.maxPrice)
    && (match q.stockStatus with
        | none => true
        | some b => stockMatches b p.stockQuantity)

/-- Modelled from the spec: the catalog query engine (spec §4.1) — keep the
products satisfying every active predicate and order them by the requested
sort. -/
def queryProducts (q : CatalogQuery) (ps : List Product) : List Product :=
  (ps.filter (matchesQuery q)).mergeSort (sortLe q.sortBy)

/-- User actions exposed by the `Home` page that touch filter state: the
search input and its clear button (lines 250, 258), a category-card click
(line 288), the price slider (line 318) and the two price inputs
(lines 330-335, 347-352), the four stock-status buttons (lines 366, 373,
380, 387), the three sort options (lines 402-404), and the reset button
(line 413). -/
inductive UIAction
  | setSearch (q : String)
  | clearSearch
  | categoryCard (name : String)
  | sliderChange (r : Int × Int)
  | minInput (v : Option Int)
  | maxInput (v : Option Int)
  | stockAll
  | stockIn
  | stockLow
  | stockOut
  | sortNewest
  | sortAsc
  | sortDesc
  | resetAll
deriving DecidableEq, Repr

/-- Effect of one user action on the filter state, as wired in Home.jsx. -/
def step (s : FilterState) : UIAction → FilterState
  | UIAction.setSearch q => { s with searchQuery := q }
  | UIAction.clearSearch => { s with searchQuery := "" }
  | UIAction.categoryCard name =>
      { s with selectedCategory := toggleCategory s.selectedCategory name }
  | UIAction.sliderChange r => { s with priceRange := r }
  | UIAction.minInput v => { s with priceRange := minPriceInput s.priceRange v }
  | UIAction.maxInput v => { s with priceRange := maxPriceInput s.priceRange v }
  | UIAction.stockAll => { s with stockStatus := none }
  | UIAction.stockIn => { s with stockStatus := some "in_stock" }
  | UIAction.stockLow => { s with stockStatus := some "low_stock" }
  | UIAction.stockOut => { s with stockStatus := some "out_of_stock" }
  | UIAction.sortNewest => { s with sortBy := "newest" }
  | UIAction.sortAsc => { s with sortBy := "price_asc" }
  | UIAction.sortDesc => { s with sortBy := "price_desc" }
  | UIAction.resetAll => resetFilters s

/-- Filter state reached from the initial state by a sequence of user
actions. -/
def reach (acts : List UIAction) : FilterState :=
  acts.foldl step defaultFilters

/-- Stock-status and sort fields range over the values the UI can produce. -/
def stockSortOK (s : FilterState) : Prop :=
  (s.stockStatus = none ∨ s.stockStatus = some "in_stock"
      ∨ s.stockStatus = some "low_stock" ∨ s.stockStatus = some "out_of_stock")
    ∧ (s.sortBy = "newest" ∨ s.sortBy = "price_asc" ∨ s.sortBy = "price_desc")

/-- Concrete catalog rows used to instantiate theorems on explicit inputs. -/
def sampleOld : Product :=
  ⟨1, "Old hammer", "well worn", 5, 3, "Tools", 10⟩

/-- Concrete catalog row distinct from `sampleOld`. -/
def sampleNew : Product :=
  ⟨2, "New hammer", "still shiny", 7, 3, "Tools", 20⟩

lemma debounceRun_pending (w : Nat) :
    ∀ (changes : List (Nat × FilterState)) (t : Nat) (s : FilterState),
      debounceRun w changes (some (t + w, s))
        = (survivors w ((t, s) :: changes)).map (fun c => (c.1 + w, c.2)) := by
  intro changes
  induction changes with
  | nil =>
      intro t s
      simp [debounceRun, survivors]
  | cons c2 rest ih =>
      intro t s
      obtain ⟨t2, s2⟩ := c2
      simp only [debounceRun, survivors, ih t2 s2, List.map_append]
      by_cases h : t + w ≤ t2 <;> simp [h]

lemma runDebounce_eq_survivors (w : Nat) (changes : List (Nat × FilterState)) :
    runDebounce w changes = (survivors w changes).map (fun c => (c.1 + w, c.2)) := by
  cases changes with
  | nil => rfl
  | cons c rest =>
      obtain ⟨t, s⟩ := c
      simpa [runDebounce, debounceRun] using debounceRun_pending w rest t s

lemma survivors_append_last (w : Nat) :
    ∀ (xs : List (Nat × FilterState)) (x : Nat × FilterState),
      ∃ pre, survivors w (xs ++ [x]) = pre ++ [x] := by
  intro xs
  induction xs with
  | nil =>
      intro x
      exact ⟨[], by simp [survivors]⟩
  | cons a rest ih =>
      intro x
      obtain ⟨pre, hpre⟩ := ih x
      cases rest with
      | nil =>
          refine ⟨if a.1 + w ≤ x.1 then [a] else [], ?_⟩
          simp [survivors]
      | cons b rest2 =>
          refine ⟨(if a.1 + w ≤ b.1 then [a] else []) ++ pre, ?_⟩
          simp only [List.cons_append, survivors, List.append_eq] at hpre ⊢
          rw [hpre, List.append_assoc]

/-- C1: the debounce effect is a trailing-edge debounce — the fetches fired
for any change trace are exactly the changes not followed within the window
by another change, each firing `window` units after the change with the
state captured at that change; in particular changes at t=0, 50, 100 with
window 300 fire exactly one fetch, at t=400, with the state as of t=100. -/
theorem debounce_trailing_edge :
    (∀ (w : Nat) (changes : List (Nat × FilterState)),
        runDebounce w changes = (survivors w changes).map (fun c => (c.1 + w, c.2)))
    ∧ ∀ s0 s1 s2 : FilterState,
        runDebounce 300 [(0, s0), (50, s1), (100, s2)] = [(400, s2)] := by
  refine ⟨runDebounce_eq_survivors, ?_⟩
  intro s0 s1 s2
  rfl

/-- C2 counterexample: with no request-id guard, a newer fetch's response
(`[sampleNew]`) arriving first and the older, stale response (`[sampleOld]`)
arriving second leaves the displayed list equal to the stale result, not the
newer fetch's result. -/
theorem stale_response_overwrites :
    (runResponses initialUI
        [FetchResult.success [sampleNew], FetchResult.success [sampleOld]]).products
      = [sampleOld]
    ∧ decide ((runResponses initialUI
        [FetchResult.success [sampleNew], FetchResult.success [sampleOld]]).products
      = [sampleNew]) = false := by
  exact ⟨rfl, by decide⟩

/-- C2 amended: the displayed product list after a sequence of response
arrivals equals the data of the response that arrived last (among successful
ones), regardless of which fetch it answers — a stale late-arriving response
does overwrite a newer result. -/
theorem products_follow_last_arrival :
    ∀ (u : UIState) (rs : List FetchResult),
      (runResponses u rs).products = lastSuccessD u.products rs := by
  intro u rs
  induction rs generalizing u with
  | nil => rfl
  | cons r rest ih =>
      cases r with
      | success d => simpa [runResponses, lastSuccessD, fetchComplete] using ih _
      | failure => simpa [runResponses, lastSuccessD, fetchComplete] using ih _

/-- C3: `resetFilters` sets every filter field to its default (category null,
price range [0, 10000], stock null, sort "newest", search empty), and the
reset — as a single change event, appended to any prior change trace —
fires exactly one fetch, 300 units later, with the default filter state. -/
theorem resetFilters_defaults_single_refetch :
    ∀ (s : FilterState) (prior : List (Nat × FilterState)) (t : Nat),
      (resetFilters s).selectedCategory = none
      ∧ (resetFilters s).priceRange = (0, 10000)
      ∧ (resetFilters s).stockStatus = none
      ∧ (resetFilters s).sortBy = "newest"
      ∧ (resetFilters s).searchQuery = ""
      ∧ runDebounce 300 [(t, resetFilters s)] = [(t + 300, defaultFilters)]
      ∧ ∃ pre, runDebounce 300 (prior ++ [(t, resetFilters s)])
          = pre ++ [(t + 300, defaultFilters)] := by
  intro s prior t
  refine ⟨rfl, rfl, rfl, rfl, rfl, rfl, ?_⟩
  obtain ⟨pre, hpre⟩ := survivors_append_last 300 prior (t, resetFilters s)
  refine ⟨pre.map (fun c => (c.1 + 300, c.2)), ?_⟩
  rw [runDebounce_eq_survivors, hpre]
  simp [resetFilters]

/-- C4: every product returned by the catalog query satisfies all active
predicates simultaneously — case-insensitive substring match on name or
description when a search term is present, exact category match when a
category is present, price within the inclusive bounds, and membership in
the requested stock bucket. -/
theorem catalog_filter_conjunctive :
    ∀ (q : CatalogQuery) (ps : List Product) (p : Product),
      p ∈ queryProducts q ps →
      (∀ s, q.search = some s →
          containsCI p.name s = true ∨ containsCI p.description s = true)
      ∧ (∀ c, q.category = some c → p.category = c)
      ∧ (q.minPrice ≤ p.price ∧ p.price ≤ q.maxPrice)
      ∧ ∀ b, q.stockStatus = some b → stockMatches b p.stockQuantity = true := by
  intro q ps p hp
  have hmem : p ∈ ps.filter (matchesQuery q) := List.mem_mergeSort.1 hp
  have hm := (List.mem_filter.1 hmem).2
  unfold matchesQuery at hm
  simp only [Bool.and_eq_true] at hm
  obtain ⟨⟨⟨⟨hsearch, hcat⟩, hmin⟩, hmax⟩, hstock⟩ := hm
  refine ⟨?_, ?_, ⟨of_decide_eq_true hmin, of_decide_eq_true hmax⟩, ?_⟩
  · intro s hs
    rw [hs] at hsearch
    simp only [Bool.or_eq_true] at hsearch
    exact hsearch
  · intro c hc
    rw [hc] at hcat
    exact of_decide_eq_true hcat
  · intro b hb
    rw [hb] at hstock
    exact hstock

/-- Concrete catalog query exercising every predicate at once. -/
def sampleQuery : CatalogQuery :=
  ⟨some "ham", some "Tools", 0, 10000, some StockBucket.in_stock, SortOrder.newest⟩

/-- Concrete product matching `sampleQuery`. -/
def sampleHammer : Product :=
  ⟨3, "Hammer", "steel claw hammer", 25, 12, "Tools", 30⟩

/-- C4 witness: instantiating the conjunctive-filtering theorem on a
concrete query and catalog. -/
theorem catalog_filter_conjunctive_witness :
    sampleQuery.minPrice ≤ sampleHammer.price
      ∧ sampleHammer.price ≤ sampleQuery.maxPrice :=
  (catalog_filter_conjunctive sampleQuery [sampleHammer] sampleHammer
    (List.mem_mergeSort.2 (by decide))).2.2.1

/-- C5: the products request always carries `min_price` and `max_price`,
carries `search`, `category`, `stock_status` and `sort_by` exactly when the
corresponding filter field is set (non-null, non-empty), and carries no
other parameter. -/
theorem buildParams_contract :
    ∀ s : FilterState,
      "min_price" ∈ (buildParams s).map Prod.fst
      ∧ "max_price" ∈ (buildParams s).map Prod.fst
      ∧ ("search" ∈ (buildParams s).map Prod.fst ↔ s.searchQuery ≠ "")
      ∧ ("category" ∈ (buildParams s).map Prod.fst
          ↔ ∃ c, s.selectedCategory = some c ∧ c ≠ "")
      ∧ ("stock_status" ∈ (buildParams s).map Prod.fst
          ↔ ∃ c, s.stockStatus = some c ∧ c ≠ "")
      ∧ ("sort_by" ∈ (buildParams s).map Prod.fst ↔ s.sortBy ≠ "")
      ∧ ((buildParams s).map Prod.fst).all
          (fun k => decide (k = "search" ∨ k = "category" ∨ k = "min_price"
            ∨ k = "max_price" ∨ k = "stock_status" ∨ k = "sort_by")) = true := by
  intro s
  obtain ⟨sq, sc, pr, st, sb⟩ := s
  rcases sc with _ | c <;> rcases st with _ | d <;>
    by_cases hsq : sq = "" <;> by_cases hsb : sb = "" <;>
    first
    | (by_cases hc : c = "" <;> by_cases hd : d = "" <;>
        simp_all [buildParams, truthyStr, truthyOpt])
    | (by_cases hc : c = "" <;> simp_all [buildParams, truthyStr, truthyOpt])
    | (by_cases hd : d = "" <;> simp_all [buildParams, truthyStr, truthyOpt])
    | simp_all [buildParams, truthyStr, truthyOpt]

/-- C5 witness: the request for a concrete filter state with a search term
carries the `search` parameter. -/
theorem buildParams_contract_witness :
    "search" ∈ (buildParams ⟨"ham", none, (0, 10000), none, "newest"⟩).map Prod.fst :=
  (buildParams_contract ⟨"ham", none, (0, 10000), none, "newest"⟩).2.2.1.mpr (by decide)

/-- C6: a failed products fetch leaves the displayed list unchanged, surfaces
the "Failed to load products" notification, clears the loading flag, and
issues no retry request. -/
theorem fetch_failure_behavior :
    ∀ u : UIState,
      (fetchComplete u FetchResult.failure).1.products = u.products
      ∧ (fetchComplete u FetchResult.failure).1.toasts
          = u.toasts ++ ["Failed to load products"]
      ∧ (fetchComplete u FetchResult.failure).1.loading = false
      ∧ (fetchComplete u FetchResult.failure).2 = [] :=
  fun _ => ⟨rfl, rfl, rfl, rfl⟩

lemma stockSortOK_step (s : FilterState) (a : UIAction) (h : stockSortOK s) :
    stockSortOK (step s a) := by
  cases a <;> simp_all [stockSortOK, step, resetFilters, defaultFilters]

lemma stockSortOK_foldl :
    ∀ (acts : List UIAction) (s : FilterState),
      stockSortOK s → stockSortOK (acts.foldl step s) := by
  intro acts
  induction acts with
  | nil => intro s h; exact h
  | cons a rest ih => intro s h; exact ih (step s a) (stockSortOK_step s a h)

/-- C7: in every UI state reachable from the initial state, the stock-status
field is null or one of `in_stock`, `low_stock`, `out_of_stock`, and the
sort field is one of `newest`, `price_asc`, `price_desc`; the buckets
denote quantity ≥ 10, 1 ≤ quantity < 10, and quantity = 0 respectively. -/
theorem stock_sort_invariant :
    (∀ acts : List UIAction, stockSortOK (reach acts))
    ∧ ∀ q : Nat,
        (stockMatches StockBucket.in_stock q = true ↔ 10 ≤ q)
        ∧ (stockMatches StockBucket.low_stock q = true ↔ 1 ≤ q ∧ q < 10)
        ∧ (stockMatches StockBucket.out_of_stock q = true ↔ q = 0) := by
  constructor
  · intro acts
    exact stockSortOK_foldl acts defaultFilters (by simp [stockSortOK, defaultFilters])
  · intro q
    refine ⟨?_, ?_, ?_⟩ <;> simp [stockMatches]

/-- C8: the min-price and max-price input handlers preserve
`0 ≤ min ≤ max ≤ 10000` — a new minimum is clamped into [0, max], a new
maximum into [min, 10000] — and a NaN parse leaves the range unchanged. -/
theorem price_inputs_preserve_invariant :
    ∀ r : Int × Int, priceInv r →
      (∀ v : Int, priceInv (minPriceInput r (some v)))
      ∧ (∀ v : Int, priceInv (maxPriceInput r (some v)))
      ∧ minPriceInput r none = r
      ∧ maxPriceInput r none = r := by
  intro r h
  obtain ⟨h1, h2, h3⟩ := h
  refine ⟨?_, ?_, rfl, rfl⟩
  · intro v
    exact ⟨le_max_left 0 _, max_le (h1.trans h2) (min_le_right v r.2), h3⟩
  · intro v
    exact ⟨h1, le_max_left _ _, max_le (h2.trans h3) (min_le_right v 10000)⟩

/-- C8 witness: an over-range minimum entered on the default range is
clamped and the invariant holds. -/
theorem price_inputs_preserve_invariant_witness :
    priceInv (minPriceInput (0, 10000) (some 20000)) :=
  (price_inputs_preserve_invariant (0, 10000)
    ⟨by decide, by decide, by decide⟩).1 20000

/-- C9: clicking the selected category's card clears the selection, clicking
a different card replaces it, and two clicks on the same card from no
selection return to no selection. -/
theorem toggleCategory_spec :
    ∀ (cur : Option String) (c : String),
      toggleCategory (some c) c = none
      ∧ (cur ≠ some c → toggleCategory cur c = some c)
      ∧ toggleCategory (toggleCategory none c) c = none := by
  intro cur c
  refine ⟨by simp [toggleCategory], ?_, by simp [toggleCategory]⟩
  intro h
  simp only [toggleCategory]
  rw [if_neg h]

/-- C9 witness: toggling a fresh category from no selection selects it. -/
theorem toggleCategory_spec_witness :
    toggleCategory none "Tools" = some "Tools" :=
  (toggleCategory_spec none "Tools").2.1 (by decide)

/-- C10: the desktop and mobile store-hours computations agree on every
(day, hour) pair, and both hold exactly when the day is Sunday with hour in
[8, 14) or a non-Sunday with hour in [8, 20). -/
theorem storeHours_pure :
    (∀ day hour : Nat, isOpenDesktop day hour = isOpenMobile day hour)
    ∧ ∀ day hour : Nat,
        isOpenDesktop day hour = true
          ↔ (day = 0 ∧ 8 ≤ hour ∧ hour < 14) ∨ (day ≠ 0 ∧ 8 ≤ hour ∧ hour < 20) := by
  refine ⟨fun day hour => rfl, ?_⟩
  intro day hour
  simp [isOpenDesktop, and_assoc]

/-- C10 witness: a Monday at 09:00 is open. -/
theorem storeHours_pure_witness :
    isOpenDesktop 1 9 = true :=
  (storeHours_pure.2 1 9).mpr (Or.inr (by decide))

end Ingoo
